import Mathlib

/-!
Verification development for the TalkStream tray utility.

The repository consists of two Python scripts:

* `src/tray_app.py` — the system-tray front-end.  Its process-controller
  functions (`is_process_running`, `start_talkstream`, `stop_talkstream`,
  `toggle_talkstream`, `select_window`, `create_window_config`,
  `terminate_process`) and its activity monitor (`patch_audio_play`,
  `patched_open`, `patched_write`, `monitor_audio_activity`) are embedded
  below as pure functions over explicit state.
* `src/main.py` — the hotkey launcher, a near-duplicate front-end whose
  `launch_gemini_liveapi` and `terminate_process` differ from the tray
  versions in a few observable ways that matter to the claims.

Modelling conventions:

* A worker process is identified by its index (pid) in a list of liveness
  flags `procs : List Bool`; `procs.getD pid false = true` means the
  process is alive.  Spawning appends a flag; the flag records whether the
  process is still alive once the one-second startup grace delay of
  `start_talkstream` has elapsed (a process that exits immediately is
  appended as `false`).
* The `window_config.json` artifact is modelled as an ordered list of
  JSON key/value pairs, mirroring Python dict insertion order under
  `json.dump`.
* `win32gui.GetWindowText` is an oracle `title : Nat → String`.
* Time is measured in milliseconds.  The activity monitor's quiescence
  delay (`time.sleep(0.2)` in `reset_audio_status`) is 200 and the poll
  period of `monitor_audio_activity` (`time.sleep(0.1)`) is 100.  Each
  `patched_write` call at time `t` enqueues `True` at `t` and — via the
  spawned reset thread — `False` at `t + 200`.  The monitor consumes at
  most one queue item per poll (`queue.get(block=False)` once per loop
  iteration); an item enqueued at time `e` is visible to a poll at time
  `t` iff `e < t`.
* `psutil` termination in `terminate_process` is modelled by giving every
  process an optional graceful-exit delay: `some d` means the process
  exits `d` time units after receiving the graceful `terminate()`
  request, `none` means it ignores the request and never exits on its
  own.  `psutil.wait_procs([parent], timeout=3)` waits on the parent
  only, exactly as in the source.
-/

set_option autoImplicit false

namespace TalkStream

/-! ## JSON model for the window-selection artifact -/

/-- A JSON scalar value, as produced by `json.dump` for the config file. -/
inductive JVal where
  | str (s : String)
  | num (n : Nat)
deriving DecidableEq, Repr

/-- A JSON object: key/value pairs in Python dict insertion order. -/
abbrev JObj := List (String × JVal)

/-- Embedding of `create_window_config` (tray_app.py lines 141-159): builds
the config dict for full-screen (`hwnd = None`) or a specific window, in
the source's insertion order, with the title read from the window system
(`win32gui.GetWindowText`) at write time. -/
def create_window_config (title : Nat → String) (hwnd : Option Nat) : JObj :=
  match hwnd with
  | none => [("type", JVal.str "fullscreen")]
  | some h => [("type", JVal.str "window"), ("hwnd", JVal.num h), ("title", JVal.str (title h))]

/-- The artifact written by the mode dispatch at the top of
`start_talkstream` (tray_app.py lines 223-232): `window` mode writes a
window config only when a window has been selected, `screen` writes the
fullscreen config, `none` writes `{"type": "none"}`, and any other mode
(including `camera` and `window` with no selection) writes nothing. -/
def written_artifact (title : Nat → String) (mode : String) (selected : Option Nat) :
    Option JObj :=
  if mode = "window" then
    match selected with
    | some h => some (create_window_config title (some h))
    | none => none
  else if mode = "screen" then some (create_window_config title none)
  else if mode = "none" then some [("type", JVal.str "none")]
  else none

/-- Effect of the mode dispatch on the config file on disk: overwritten
when an artifact is produced, left untouched otherwise. -/
def write_config_step (title : Nat → String) (mode : String) (selected : Option Nat)
    (file : Option JObj) : Option JObj :=
  match written_artifact title mode selected with
  | some a => some a
  | none => file

/-! ## Process liveness primitives -/

/-- Liveness of worker `pid` in the process table (`poll() is None`). -/
def aliveAt (procs : List Bool) (pid : Nat) : Bool :=
  procs.getD pid false

/-- Number of live workers in the process table. -/
def countTrue : List Bool → Nat
  | [] => 0
  | b :: bs => (if b then 1 else 0) + countTrue bs

/-- Embedding of `is_process_running` (tray_app.py lines 162-170 and
main.py lines 56-72): `False` for `None`, otherwise `poll() is None`. -/
def is_process_running (procs : List Bool) (p : Option Nat) : Bool :=
  match p with
  | none => false
  | some pid => aliveAt procs pid

/-- Killing the process referenced by a handle slot (the liveness effect of
`terminate_process` on the worker itself). -/
def kill_pid (procs : List Bool) (p : Option Nat) : List Bool :=
  match p with
  | none => procs
  | some pid => procs.set pid false

/-! ## Tray-app process controller (tray_app.py) -/

/-- Environment of one launch attempt: whether `gemini_liveapi.py` exists
on disk, whether the spawned worker is still alive when the one-second
grace check (`time.sleep(1)` then `is_process_running`) runs, and the
window-title oracle. -/
structure LaunchEnv where
  scriptExists : Bool
  survivesGrace : Bool
  title : Nat → String

/-- The tray app's mutable state: the process table, the global
`talkstream_process` slot, the global `selected_window`, and the contents
of `window_config.json`. -/
structure TrayState where
  procs : List Bool
  slot : Option Nat
  selected : Option Nat
  config : Option JObj
deriving DecidableEq

/-- Embedding of `start_talkstream` (tray_app.py lines 208-319): check the
script exists, write the mode artifact, spawn the worker, then after the
grace delay return the handle if the process is still alive and `None`
if it exited within the window.  Returns the new state and the handle. -/
def start_talkstream (env : LaunchEnv) (mode : String) (s : TrayState) :
    TrayState × Option Nat :=
  if env.scriptExists then
    let s1 : TrayState := { s with config := write_config_step env.title mode s.selected s.config }
    let pid := s1.procs.length
    let s2 : TrayState := { s1 with procs := s1.procs ++ [env.survivesGrace] }
    if env.survivesGrace then (s2, some pid) else (s2, none)
  else (s, none)

/-- Embedding of `stop_talkstream` (tray_app.py lines 322-328): if the
slot holds a running process, terminate it and clear the slot; otherwise
do nothing (in particular a dead handle is left in the slot). -/
def stop_talkstream (s : TrayState) : TrayState :=
  if is_process_running s.procs s.slot then
    { s with procs := kill_pid s.procs s.slot, slot := none }
  else s

/-- Embedding of `toggle_talkstream` (tray_app.py lines 331-352): stop if
running, else start and store the returned handle (possibly `None`) in
the global slot. -/
def toggle_talkstream (env : LaunchEnv) (mode : String) (s : TrayState) : TrayState :=
  if is_process_running s.procs s.slot then stop_talkstream s
  else
    let r := start_talkstream env mode s
    { r.1 with slot := r.2 }

/-- Embedding of `select_window` (tray_app.py lines 130-138): record the
selection, and if the worker is running, stop it and call
`start_talkstream(mode="window")` — whose return value the source
discards, so the slot is left as `stop_talkstream` set it. -/
def select_window (env : LaunchEnv) (hwnd : Nat) (s : TrayState) : TrayState :=
  let s1 : TrayState := { s with selected := some hwnd }
  if is_process_running s1.procs s1.slot then
    let s2 := stop_talkstream s1
    (start_talkstream env "window" s2).1
  else s1

/-- A sequence of completed (serialized) `toggle_talkstream` calls. -/
def run_toggles (l : List (LaunchEnv × String)) (s : TrayState) : TrayState :=
  l.foldl (fun st p => toggle_talkstream p.1 p.2 st) s

/-- Controller invariant: at most one live worker, and any live worker is
the one referenced by the `talkstream_process` slot. -/
def TrayInv (s : TrayState) : Prop :=
  countTrue s.procs ≤ 1 ∧
    ∀ pid, pid < s.procs.length → aliveAt s.procs pid = true → s.slot = some pid

instance (s : TrayState) : Decidable (TrayInv s) :=
  inferInstanceAs (Decidable (countTrue s.procs ≤ 1 ∧
    ∀ pid, pid < s.procs.length → aliveAt s.procs pid = true → s.slot = some pid))

/-! ## Hotkey-launcher process controller (main.py) -/

/-- The hotkey launcher's mutable state: process table and the global
`talkstream_process` slot. -/
structure HkState where
  procs : List Bool
  slot : Option Nat
deriving DecidableEq

/-- Embedding of `launch_gemini_liveapi` (main.py lines 113-178): if a
worker is running it is terminated and `None` returned; otherwise, if the
script exists, the worker is spawned and its handle returned immediately
— there is no grace-delay liveness check in this variant, so the handle
is returned even if the process has already exited. -/
def launch_gemini_liveapi (env : LaunchEnv) (s : HkState) : HkState × Option Nat :=
  if is_process_running s.procs s.slot then
    ({ procs := kill_pid s.procs s.slot, slot := none }, none)
  else if env.scriptExists then
    ({ s with procs := s.procs ++ [env.survivesGrace] }, some s.procs.length)
  else (s, none)

/-! ## Worker invocation records (the `subprocess.Popen` calls) -/

/-- Observable parameters of a `subprocess.Popen` invocation: command
line, explicit working directory (`none` = inherited from the launcher),
whether the environment is inherited, whether the three standard streams
are redirected to pipes, and whether the window is hidden
(`STARTF_USESHOWWINDOW`/`SW_HIDE` plus `CREATE_NO_WINDOW`). -/
structure PopenCall where
  args : List String
  cwd : Option String
  envInherited : Bool
  stdinPiped : Bool
  stdoutPiped : Bool
  stderrPiped : Bool
  windowHidden : Bool
deriving DecidableEq, Repr

/-- The `Popen` call made by `start_talkstream` (tray_app.py lines
253-278): `cwd` pinned to the script directory, `env = os.environ.copy()`
(inherited), all three streams piped, hidden window. -/
def tray_popen (py script dir mode : String) : PopenCall :=
  { args := [py, script, "--mode", mode]
    cwd := some dir
    envInherited := true
    stdinPiped := true
    stdoutPiped := true
    stderrPiped := true
    windowHidden := true }

/-- The `Popen` call made by `launch_gemini_liveapi` (main.py lines
146-163): same command line, streams and window flags, but no `cwd` and
no `env` argument — both are inherited from the launcher process. -/
def hotkey_popen (py script mode : String) : PopenCall :=
  { args := [py, script, "--mode", mode]
    cwd := none
    envInherited := true
    stdinPiped := true
    stdoutPiped := true
    stderrPiped := true
    windowHidden := true }

/-- The working directory the spawned worker actually runs in: the
explicit `cwd` if one was passed, else the launcher's own directory. -/
def effectiveCwd (c : PopenCall) (launcherCwd : String) : String :=
  c.cwd.getD launcherCwd

/-! ## Termination with descendants (`terminate_process`) -/

/-- One observable action of `terminate_process`, in program order:
a graceful `terminate()` to descendant `i`, the graceful `terminate()` to
the worker, the `psutil.wait_procs([parent], timeout=3)` call (recording
the time it blocked), and the `kill()` of the worker when it survived the
wait. -/
inductive TAct where
  | termChild (i : Nat)
  | termParent
  | waitParent (elapsed : Nat)
  | killParent
deriving DecidableEq, Repr

/-- The `for child in parent.children(recursive=True): child.terminate()`
loop: emits one graceful request per descendant, in order, and records
which descendants stay alive (those whose graceful-exit delay is `none`,
i.e. which ignore the request). -/
def term_children_loop : Nat → List (Option Nat) → List TAct × List Bool
  | _, [] => ([], [])
  | i, c :: cs =>
    let r := term_children_loop (i + 1) cs
    (TAct.termChild i :: r.1, c.isNone :: r.2)

/-- Embedding of `terminate_process` (tray_app.py lines 173-205 and
main.py lines 74-111).  Input: the graceful-exit delays of the worker's
descendants and of the worker itself (`none` = ignores `terminate()`).
Output: the action trace, the final liveness of (worker, descendants),
and the time spent blocked in `wait_procs`.  The wait and the force-kill
apply to the list `[parent]` only, exactly as in the source. -/
def terminate_process (children : List (Option Nat)) (parentDelay : Option Nat) :
    List TAct × (Bool × List Bool) × Nat :=
  let ph1 := term_children_loop 0 children
  let acts2 := ph1.1 ++ [TAct.termParent]
  let wait : Nat × Bool :=
    match parentDelay with
    | some d => if d ≤ 3 then (d, false) else (3, true)
    | none => (3, true)
  let acts3 := acts2 ++ [TAct.waitParent wait.1]
  if wait.2 then (acts3 ++ [TAct.killParent], (false, ph1.2), wait.1)
  else (acts3, (false, ph1.2), wait.1)

/-! ## Activity monitor (patched_write / monitor_audio_activity) -/

/-- Quiescence delay of `reset_audio_status` (`time.sleep(0.2)`), in ms. -/
def QUIESCENCE_MS : Nat := 200

/-- Poll period of `monitor_audio_activity` (`time.sleep(0.1)`), in ms. -/
def POLL_MS : Nat := 100

/-- Insert a timestamped queue item in chronological order (stable: an
item ties ahead of later-inserted items with the same timestamp). -/
def insertEvent (e : Nat × Bool) : List (Nat × Bool) → List (Nat × Bool)
  | [] => [e]
  | f :: fs => if e.1 ≤ f.1 then e :: f :: fs else f :: insertEvent e fs

/-- Contents of `audio_status_queue` in arrival order for a list of
`patched_write` call times: each write at time `t` puts `True` at `t`,
and its `reset_audio_status` thread puts `False` at `t + QUIESCENCE_MS`
unconditionally — no later write cancels or restarts a pending reset. -/
def mkEvents (signals : List Nat) : List (Nat × Bool) :=
  signals.foldr (fun s acc => insertEvent (s, true) acc)
    (signals.map fun s => (s + QUIESCENCE_MS, false))

/-- One iteration of the `monitor_audio_activity` loop at poll time `t`:
`audio_status_queue.get(block=False)` consumes at most one item (visible
iff enqueued strictly before `t`) and overwrites `audio_active` with it. -/
def monitor_poll (t : Nat) : Bool × List (Nat × Bool) → Bool × List (Nat × Bool)
  | (b, []) => (b, [])
  | (b, e :: rest) => if e.1 < t then (e.2, rest) else (b, e :: rest)

/-- The observed `audio_active` value after each poll in a poll schedule. -/
def monitor_trace : List Nat → Bool × List (Nat × Bool) → List Bool
  | [], _ => []
  | t :: ts, st =>
    let st2 := monitor_poll t st
    st2.1 :: monitor_trace ts st2

/-- The monitor's poll instants: every `POLL_MS` starting at `POLL_MS`. -/
def poll_times (n : Nat) : List Nat :=
  (List.range n).map fun i => POLL_MS * (i + 1)

/-- Observed activity state over the first `n` polls, for `patched_write`
calls at the given times, starting from `audio_active = False`. -/
def observed_trace (signals : List Nat) (n : Nat) : List Bool :=
  monitor_trace (poll_times n) (false, mkEvents signals)

/-- Number of committed stop edges (Active → Idle) in a trace, given the
state before the first sample. -/
def falling_edges : Bool → List Bool → Nat
  | _, [] => 0
  | prev, b :: bs => (if prev && !b then 1 else 0) + falling_edges b bs

/-- Number of start edges (Idle → Active) in a trace. -/
def rising_edges : Bool → List Bool → Nat
  | _, [] => 0
  | prev, b :: bs => (if !prev && b then 1 else 0) + rising_edges b bs

/-- Transitions back to Idle observed in a trace that starts Idle. -/
def idle_transitions (tr : List Bool) : Nat := falling_edges false tr

/-- Distinct observed Active periods in a trace that starts Idle. -/
def active_periods (tr : List Bool) : Nat := rising_edges false tr

/-- Whether consecutive signal times are spaced strictly less than `w`
apart. -/
def gapsWithin (w : Nat) : List Nat → Bool
  | [] => true
  | [_] => true
  | a :: b :: rest => decide (b - a < w) && gapsWithin w (b :: rest)

/-! ## Audio-library instrumentation (patch_audio_play) -/

/-- Failure modes of the monitoring code inside `patched_write`: no
failure, `audio_status_queue.put(True)` raising, or the spawn of the
`reset_audio_status` thread raising.  (The original write itself is
outside the monitor; the `except` branch of the source calls it with the
same arguments.) -/
inductive WriteFault where
  | ok
  | raiseAtSignal
  | raiseAtSpawn
deriving DecidableEq, Repr

/-- Observable outcome of one `patched_write` call: the value returned to
the caller, whether `True` was enqueued, and whether a reset thread was
scheduled. -/
structure WriteOutcome (ρ : Type) where
  result : ρ
  signaledActive : Bool
  scheduledReset : Bool

/-- Embedding of `patched_write` (tray_app.py lines 403-425): signal
activity, schedule the delayed reset, call the original write; if the
monitoring part raises, the `except` branch logs and calls the original
write with the same arguments. -/
def patched_write {δ ρ : Type} (fault : WriteFault) (origWrite : δ → ρ) (d : δ) :
    WriteOutcome ρ :=
  match fault with
  | WriteFault.ok => { result := origWrite d, signaledActive := true, scheduledReset := true }
  | WriteFault.raiseAtSignal => { result := origWrite d, signaledActive := false, scheduledReset := false }
  | WriteFault.raiseAtSpawn => { result := origWrite d, signaledActive := true, scheduledReset := false }

/-- An audio stream as the monitor sees it: its write entry point. -/
structure AudioStream (δ ρ : Type) where
  write : δ → ρ

/-- Failure mode of the monitoring code inside `patched_open`: the
instrumentation after the successful original open raising. -/
inductive OpenFault where
  | ok
  | raiseInPatch
deriving DecidableEq, Repr

/-- The stream returned by `patched_open` for an output stream: its write
method replaced by `patched_write` over the original write. -/
def patched_stream {δ ρ : Type} (wfault : WriteFault) (st : AudioStream δ ρ) :
    AudioStream δ ρ :=
  { write := fun d => (patched_write wfault st.write d).result }

/-- Embedding of `patched_open` (tray_app.py lines 393-430): call the
original open; patch the write method of output streams; if the
instrumentation raises, the `except` branch calls the original open with
the same arguments. -/
def patched_open {α δ ρ : Type} (fault : OpenFault) (wfault : WriteFault)
    (origOpen : α → AudioStream δ ρ) (isOutput : Bool) (a : α) : AudioStream δ ρ :=
  match fault with
  | OpenFault.raiseInPatch => origOpen a
  | OpenFault.ok => if isOutput then patched_stream wfault (origOpen a) else origOpen a

/-- Embedding of `patch_audio_play` (tray_app.py lines 380-437): replace
`PyAudio.open` by `patched_open`; if attaching the hook raises, the
`except` branch leaves the original open in place. -/
def patch_audio_play {α δ ρ : Type} (attachFails : Bool) (fault : OpenFault)
    (wfault : WriteFault) (origOpen : α → AudioStream δ ρ) :
    Bool → α → AudioStream δ ρ :=
  if attachFails then fun _ a => origOpen a
  else fun isOutput a => patched_open fault wfault origOpen isOutput a

/-! ## Interleaving semantics for concurrent toggles -/

/-- Shared globals seen by both trigger threads: the process table and
the `talkstream_process` slot. -/
structure GS where
  procs : List Bool
  slot : Option Nat
deriving DecidableEq

/-- Progress of one in-flight `toggle_talkstream` call.  `ready`: about
to test `is_process_running(talkstream_process)`.  `grace pid`: inside
`start_talkstream`, worker `pid` spawned, sleeping through the grace
delay — the global slot has not been written yet, exactly as in the
source where `talkstream_process = start_talkstream(mode)` assigns only
after `start_talkstream` returns. -/
inductive Phase where
  | ready
  | grace (pid : Nat)
  | done
deriving DecidableEq, Repr

/-- One atomic step of a toggle thread.  From `ready`: either perform the
stop path, or spawn a worker (which stays alive in this model) and enter
the grace sleep.  From `grace`: finish the grace check and store the
result in the global slot. -/
def toggle_step (gs : GS) : Phase → GS × Phase
  | Phase.ready =>
    if is_process_running gs.procs gs.slot then
      ({ procs := kill_pid gs.procs gs.slot, slot := none }, Phase.done)
    else
      ({ gs with procs := gs.procs ++ [true] }, Phase.grace gs.procs.length)
  | Phase.grace pid =>
    if aliveAt gs.procs pid then ({ gs with slot := some pid }, Phase.done)
    else ({ gs with slot := none }, Phase.done)
  | Phase.done => (gs, Phase.done)

/-- Run two toggle threads under an explicit schedule (`false` steps the
first thread, `true` the second). -/
def run_sched : List Bool → GS × Phase × Phase → GS × Phase × Phase
  | [], st => st
  | tid :: rest, (gs, p1, p2) =>
    if tid then
      let r := toggle_step gs p2
      run_sched rest (r.1, p1, r.2)
    else
      let r := toggle_step gs p1
      run_sched rest (r.1, r.2, p2)

/-! ## Basic lemmas about the liveness primitives -/

theorem aliveAt_lt_length {procs : List Bool} {pid : Nat} (h : aliveAt procs pid = true) :
    pid < procs.length := by
  induction procs generalizing pid with
  | nil => simp [aliveAt, List.getD] at h
  | cons b bs ih =>
    cases pid with
    | zero => simp
    | succ p => exact Nat.succ_lt_succ (ih h)

theorem aliveAt_append_left {l : List Bool} (b : Bool) {pid : Nat} (h : pid < l.length) :
    aliveAt (l ++ [b]) pid = aliveAt l pid := by
  induction l generalizing pid with
  | nil => exact absurd h (by simp)
  | cons c cs ih =>
    cases pid with
    | zero => rfl
    | succ p => exact ih (Nat.lt_of_succ_lt_succ h)

theorem aliveAt_append_right (l : List Bool) (b : Bool) :
    aliveAt (l ++ [b]) l.length = b := by
  induction l with
  | nil => rfl
  | cons c cs ih => exact ih

theorem aliveAt_set_self (l : List Bool) (pid : Nat) :
    aliveAt (l.set pid false) pid = false := by
  induction l generalizing pid with
  | nil => rfl
  | cons c cs ih =>
    cases pid with
    | zero => rfl
    | succ p => exact ih p

theorem aliveAt_set_ne (l : List Bool) (pid q : Nat) (h : q ≠ pid) :
    aliveAt (l.set pid false) q = aliveAt l q := by
  induction l generalizing pid q with
  | nil => rfl
  | cons c cs ih =>
    cases pid with
    | zero =>
      cases q with
      | zero => exact absurd rfl h
      | succ p => rfl
    | succ p =>
      cases q with
      | zero => rfl
      | succ q2 => exact ih p q2 (fun he => h (by rw [he]))

theorem countTrue_append (a b : List Bool) :
    countTrue (a ++ b) = countTrue a + countTrue b := by
  induction a with
  | nil => simp [countTrue]
  | cons c cs ih => simp [countTrue, ih, Nat.add_assoc]

theorem countTrue_eq_zero {l : List Bool}
    (h : ∀ pid, pid < l.length → aliveAt l pid = false) : countTrue l = 0 := by
  induction l with
  | nil => rfl
  | cons b bs ih =>
    have hb : b = false := h 0 (by simp)
    have ht : countTrue bs = 0 :=
      ih (fun pid hp => h (pid + 1) (Nat.succ_lt_succ hp))
    simp [countTrue, hb, ht]

theorem trayInv_no_alive {s : TrayState} (hinv : TrayInv s)
    (hnr : is_process_running s.procs s.slot = false) :
    ∀ pid, pid < s.procs.length → aliveAt s.procs pid = false := by
  intro pid hlt
  cases ha : aliveAt s.procs pid with
  | false => rfl
  | true =>
    have hslot := hinv.2 pid hlt ha
    rw [hslot] at hnr
    exact absurd hnr (by simp [is_process_running, ha])

/-! ## Case equations for the tray controller -/

theorem toggle_eq_stop (env : LaunchEnv) (mode : String) (s : TrayState)
    (hr : is_process_running s.procs s.slot = true) :
    toggle_talkstream env mode s = stop_talkstream s := by
  simp [toggle_talkstream, hr]

theorem toggle_eq_start (env : LaunchEnv) (mode : String) (s : TrayState)
    (hr : is_process_running s.procs s.slot = false) :
    toggle_talkstream env mode s =
      { (start_talkstream env mode s).1 with slot := (start_talkstream env mode s).2 } := by
  simp [toggle_talkstream, hr]

theorem start_eq_missing (env : LaunchEnv) (mode : String) (s : TrayState)
    (hse : env.scriptExists = false) :
    start_talkstream env mode s = (s, none) := by
  simp [start_talkstream, hse]

theorem start_eq_spawn (env : LaunchEnv) (mode : String) (s : TrayState)
    (hse : env.scriptExists = true) :
    start_talkstream env mode s =
      ({ s with config := write_config_step env.title mode s.selected s.config,
                procs := s.procs ++ [env.survivesGrace] },
       if env.survivesGrace then some s.procs.length else none) := by
  cases hsv : env.survivesGrace <;> simp [start_talkstream, hse, hsv]

theorem stop_eq_kill (s : TrayState) (hr : is_process_running s.procs s.slot = true) :
    stop_talkstream s = { s with procs := kill_pid s.procs s.slot, slot := none } := by
  simp [stop_talkstream, hr]

theorem stop_eq_noop (s : TrayState) (hr : is_process_running s.procs s.slot = false) :
    stop_talkstream s = s := by
  simp [stop_talkstream, hr]

/-- Helper: a single completed `toggle_talkstream` preserves the
single-worker invariant. -/
theorem trayInv_toggle (env : LaunchEnv) (mode : String) (s : TrayState)
    (h : TrayInv s) : TrayInv (toggle_talkstream env mode s) := by
  cases hr : is_process_running s.procs s.slot with
  | true =>
    rw [toggle_eq_stop env mode s hr]
    obtain ⟨pid0, hslot⟩ : ∃ pid0, s.slot = some pid0 := by
      cases hs : s.slot
      · rw [hs] at hr; exact absurd hr (by simp [is_process_running])
      · exact ⟨_, rfl⟩
    rw [stop_eq_kill s hr]
    have hall : ∀ q, q < s.procs.length → aliveAt (kill_pid s.procs s.slot) q = false := by
      intro q hq
      rw [hslot]
      show aliveAt (s.procs.set pid0 false) q = false
      by_cases hqe : q = pid0
      · rw [hqe]; exact aliveAt_set_self _ _
      · rw [aliveAt_set_ne _ _ _ hqe]
        cases ha : aliveAt s.procs q with
        | false => rfl
        | true =>
          have h2 := h.2 q hq ha
          rw [hslot] at h2
          exact absurd (Option.some.inj h2).symm hqe
    have hlen : (kill_pid s.procs s.slot).length = s.procs.length := by
      rw [hslot]; simp [kill_pid]
    refine ⟨?_, ?_⟩
    · show countTrue (kill_pid s.procs s.slot) ≤ 1
      have : countTrue (kill_pid s.procs s.slot) = 0 :=
        countTrue_eq_zero (fun q hq => hall q (hlen ▸ hq))
      omega
    · intro pid hlt ha
      have hlt2 : pid < s.procs.length := by
        rw [← hlen]
        exact hlt
      exact absurd ha (by rw [hall pid hlt2]; simp)
  | false =>
    rw [toggle_eq_start env mode s hr]
    have hzero : ∀ pid, pid < s.procs.length → aliveAt s.procs pid = false :=
      trayInv_no_alive h hr
    have hcnt : countTrue s.procs = 0 := countTrue_eq_zero hzero
    cases hse : env.scriptExists with
    | false =>
      rw [start_eq_missing env mode s hse]
      refine ⟨?_, ?_⟩
      · show countTrue s.procs ≤ 1
        omega
      · intro pid hlt ha
        exact absurd ha (by rw [hzero pid hlt]; simp)
    | true =>
      rw [start_eq_spawn env mode s hse]
      refine ⟨?_, ?_⟩
      · show countTrue (s.procs ++ [env.survivesGrace]) ≤ 1
        rw [countTrue_append, hcnt]
        cases env.survivesGrace <;> simp [countTrue]
      · intro pid hlt ha
        have hlt2 : pid < s.procs.length + 1 := by
          simpa using aliveAt_lt_length ha
        rcases Nat.lt_succ_iff_lt_or_eq.mp hlt2 with hc | hc
        · rw [show aliveAt ({ s with
              config := write_config_step env.title mode s.selected s.config,
              procs := s.procs ++ [env.survivesGrace] } : TrayState).procs pid
              = aliveAt (s.procs ++ [env.survivesGrace]) pid from rfl,
            aliveAt_append_left _ hc] at ha
          exact absurd ha (by rw [hzero pid hc]; simp)
        · subst hc
          have hv : env.survivesGrace = true := by
            have := aliveAt_append_right s.procs env.survivesGrace
            rw [show aliveAt ({ s with
                config := write_config_step env.title mode s.selected s.config,
                procs := s.procs ++ [env.survivesGrace] } : TrayState).procs s.procs.length
                = aliveAt (s.procs ++ [env.survivesGrace]) s.procs.length from rfl] at ha
            rw [this] at ha
            exact ha
          show (if env.survivesGrace then some s.procs.length else none) = some s.procs.length
          rw [hv]
          simp

/-! ## Claim C1 -/

/-- C1 counterexample: the source guards the `talkstream_process` slot
with no lock, and the grace delay inside `start_talkstream` runs before
the slot is assigned.  Interleaving two `toggle_talkstream` invocations
from the empty state — each checks `is_process_running`, spawns, and only
then assigns the slot — completes both toggles and leaves two live
workers, refuting "at most one WorkerHandle is alive at any instant for
any interleaving". -/
theorem c1_interleaved_toggles_double_start :
    countTrue (run_sched [false, true, false, true]
      ((⟨[], none⟩ : GS), Phase.ready, Phase.ready)).1.procs = 2 ∧
    ¬ countTrue (run_sched [false, true, false, true]
      ((⟨[], none⟩ : GS), Phase.ready, Phase.ready)).1.procs ≤ 1 := by
  decide

/-- C1 (amended): serialized `toggle_talkstream` invocations — each one
running to completion before the next begins — do preserve the
single-worker invariant: at most one live worker, owned by the
controller slot.  It is only concurrent interleavings that can
double-start, because the handle slot is not guarded by any mutex. -/
theorem c1_sequential_toggles_single_worker (l : List (LaunchEnv × String))
    (s : TrayState) (h : TrayInv s) : TrayInv (run_toggles l s) := by
  induction l generalizing s with
  | nil => exact h
  | cons p rest ih => exact ih (toggle_talkstream p.1 p.2 s) (trayInv_toggle p.1 p.2 s h)

theorem c1_sequential_toggles_single_worker_witness :
    TrayInv ⟨[], none, none, none⟩ ∧
    TrayInv (run_toggles
      [(⟨true, true, fun _ => "Notepad"⟩, "screen"), (⟨true, true, fun _ => "Notepad"⟩, "screen")]
      ⟨[], none, none, none⟩) :=
  ⟨by decide, c1_sequential_toggles_single_worker _ ⟨[], none, none, none⟩ (by decide)⟩

/-! ## Claim C2 -/

/-- C2: the code at the failing input.  `patched_write` never restarts a
pending quiescence timer: each write schedules an unconditional
`put(False)` at its own time plus 200 ms.  For activity signals at 0,
150 and 300 ms — consecutive gaps of 150 ms, each below the 200 ms
window — the monitor observes `[T, T, F, T, F, F, F]`: two distinct
Active periods and two transitions back to Idle, the first already at
the 300 ms poll, before the last signal plus the window (500 ms).  The
claimed single Active period with exactly one Idle transition after
last-signal-plus-window does not hold. -/
theorem c2_no_timer_restart_flicker :
    gapsWithin QUIESCENCE_MS [0, 150, 300] = true ∧
    observed_trace [0, 150, 300] 7 = [true, true, false, true, false, false, false] ∧
    active_periods (observed_trace [0, 150, 300] 7) = 2 ∧
    idle_transitions (observed_trace [0, 150, 300] 7) = 2 := by
  decide

/-! ## Claim C3 -/

/-- C3 counterexample: the hotkey launcher's `launch_gemini_liveapi`
(main.py) has no grace-delay check — it returns the handle immediately.
Launching a worker that exits within the grace window still yields a
handle (`some 0`) whose process then shows as not running, refuting the
claim for this launch path. -/
theorem c3_hotkey_launch_skips_grace_check :
    (launch_gemini_liveapi ⟨true, false, fun _ => ""⟩ ⟨[], none⟩).2 = some 0 ∧
    aliveAt (launch_gemini_liveapi ⟨true, false, fun _ => ""⟩ ⟨[], none⟩).1.procs 0 = false := by
  decide

/-- C3 (amended): the tray app's `start_talkstream` does satisfy the
claim: whenever it returns a handle, the spawned worker is still alive
after the grace delay, and whenever the worker exits within the grace
window the call returns no handle. -/
theorem c3_tray_start_grace_check (env : LaunchEnv) (mode : String) (s : TrayState) :
    (∀ pid, (start_talkstream env mode s).2 = some pid →
      aliveAt (start_talkstream env mode s).1.procs pid = true) ∧
    (env.survivesGrace = false → (start_talkstream env mode s).2 = none) := by
  cases hse : env.scriptExists with
  | false =>
    rw [start_eq_missing env mode s hse]
    exact ⟨fun pid hp => by simp at hp, fun _ => rfl⟩
  | true =>
    rw [start_eq_spawn env mode s hse]
    cases hsv : env.survivesGrace with
    | false =>
      refine ⟨fun pid hp => ?_, fun _ => by simp⟩
      simp at hp
    | true =>
      refine ⟨fun pid hp => ?_, fun hc => by simp at hc⟩
      have hpid : s.procs.length = pid := by simpa using hp
      subst hpid
      show aliveAt (s.procs ++ [true]) s.procs.length = true
      rw [aliveAt_append_right]

theorem c3_tray_start_grace_check_witness :
    (start_talkstream ⟨true, true, fun _ => ""⟩ "screen" ⟨[], none, none, none⟩).2 = some 0 ∧
    aliveAt (start_talkstream ⟨true, true, fun _ => ""⟩ "screen"
      ⟨[], none, none, none⟩).1.procs 0 = true :=
  ⟨rfl, (c3_tray_start_grace_check ⟨true, true, fun _ => ""⟩ "screen"
    ⟨[], none, none, none⟩).1 0 rfl⟩

/-! ## Claim C4 -/

/-- Helper: the child-termination loop emits one graceful request per
descendant, in order, and the descendants that stay alive are exactly
those that ignore the request. -/
theorem term_children_loop_spec (cs : List (Option Nat)) :
    ∀ i, (term_children_loop i cs).1 = (List.range' i cs.length).map TAct.termChild ∧
      (term_children_loop i cs).2 = cs.map Option.isNone := by
  induction cs with
  | nil => exact fun i => ⟨rfl, rfl⟩
  | cons c cs ih =>
    intro i
    refine ⟨?_, ?_⟩
    · show TAct.termChild i :: (term_children_loop (i + 1) cs).1 = _
      rw [(ih (i + 1)).1]
      rfl
    · show c.isNone :: (term_children_loop (i + 1) cs).2 = _
      rw [(ih (i + 1)).2]
      rfl

/-- C4 counterexample: `terminate_process` passes only `[parent]` to
`psutil.wait_procs(..., timeout=3)` and force-kills only that list's
survivors.  A single descendant that ignores its graceful `terminate()`
is still alive when `terminate_process` returns, and the action trace
contains no force-kill at all — refuting "force-kills every surviving
process (descendants included)". -/
theorem c4_stubborn_descendant_survives :
    (terminate_process [none] (some 0)).2.1.2 = [true] ∧
    (terminate_process [none] (some 0)).1
      = [TAct.termChild 0, TAct.termParent, TAct.waitParent 0] := by
  decide

/-- Helper case equation: a worker that ignores graceful termination. -/
theorem terminate_eq_ignored (children : List (Option Nat)) :
    terminate_process children none
      = (((term_children_loop 0 children).1 ++ [TAct.termParent] ++ [TAct.waitParent 3])
          ++ [TAct.killParent],
         (false, (term_children_loop 0 children).2), 3) := rfl

/-- Helper case equation: a worker that exits within the wait timeout. -/
theorem terminate_eq_graceful (children : List (Option Nat)) (d : Nat) (hd : d ≤ 3) :
    terminate_process children (some d)
      = ((term_children_loop 0 children).1 ++ [TAct.termParent] ++ [TAct.waitParent d],
         (false, (term_children_loop 0 children).2), d) := by
  simp [terminate_process, hd]

/-- Helper case equation: a worker that outlives the wait timeout. -/
theorem terminate_eq_timeout (children : List (Option Nat)) (d : Nat) (hd : ¬ d ≤ 3) :
    terminate_process children (some d)
      = (((term_children_loop 0 children).1 ++ [TAct.termParent] ++ [TAct.waitParent 3])
          ++ [TAct.killParent],
         (false, (term_children_loop 0 children).2), 3) := by
  simp [terminate_process, hd]

/-- C4 (amended): `terminate_process` gracefully terminates each
descendant first and then the worker, waits at most 3 time units on the
worker alone, force-kills the worker when it survives the wait, and
always returns with the worker dead within the bounded wait — but the
descendants that ignore graceful termination survive; they are neither
waited on nor force-killed. -/
theorem c4_terminate_two_phase_bounded (children : List (Option Nat))
    (parentDelay : Option Nat) :
    (∃ tail, (terminate_process children parentDelay).1
      = (List.range children.length).map TAct.termChild ++ TAct.termParent :: tail) ∧
    (terminate_process children parentDelay).2.1.1 = false ∧
    (terminate_process children parentDelay).2.2 ≤ 3 ∧
    (terminate_process children parentDelay).2.1.2 = children.map Option.isNone ∧
    (parentDelay = none → TAct.killParent ∈ (terminate_process children parentDelay).1) := by
  have hloop := term_children_loop_spec children 0
  have hrange : (term_children_loop 0 children).1
      = (List.range children.length).map TAct.termChild := by
    rw [hloop.1, List.range_eq_range']
  rcases parentDelay with _ | d
  · rw [terminate_eq_ignored children]
    refine ⟨⟨[TAct.waitParent 3, TAct.killParent], ?_⟩, rfl, Nat.le_refl 3, hloop.2,
      fun _ => ?_⟩
    · rw [hrange]
      simp
    · simp
  · by_cases hd : d ≤ 3
    · rw [terminate_eq_graceful children d hd]
      refine ⟨⟨[TAct.waitParent d], ?_⟩, rfl, hd, hloop.2, fun hc => by cases hc⟩
      rw [hrange]
      simp
    · rw [terminate_eq_timeout children d hd]
      refine ⟨⟨[TAct.waitParent 3, TAct.killParent], ?_⟩, rfl, Nat.le_refl 3, hloop.2,
        fun hc => by cases hc⟩
      rw [hrange]
      simp

theorem c4_terminate_two_phase_bounded_witness :
    (terminate_process [some 1] none).2.1.1 = false ∧
    (terminate_process [some 1] none).2.2 ≤ 3 ∧
    TAct.killParent ∈ (terminate_process [some 1] none).1 :=
  ⟨(c4_terminate_two_phase_bounded [some 1] none).2.1,
   (c4_terminate_two_phase_bounded [some 1] none).2.2.1,
   (c4_terminate_two_phase_bounded [some 1] none).2.2.2.2 rfl⟩

/-! ## Claim C5 -/

/-- C5: the mode dispatch in `start_talkstream` writes exactly the
claimed artifacts: `window` mode with a selected handle `H` writes
`{"type": "window", "hwnd": H, "title": GetWindowText(H)}`, `screen`
writes `{"type": "fullscreen"}`, and `none` writes `{"type": "none"}`. -/
theorem c5_mode_artifacts (title : Nat → String) (H : Nat) (sel : Option Nat) :
    written_artifact title "window" (some H)
      = some [("type", JVal.str "window"), ("hwnd", JVal.num H),
              ("title", JVal.str (title H))] ∧
    written_artifact title "screen" sel = some [("type", JVal.str "fullscreen")] ∧
    written_artifact title "none" sel = some [("type", JVal.str "none")] :=
  ⟨rfl, rfl, rfl⟩

/-! ## Claim C6 -/

/-- C6 counterexample: the hotkey launcher's `Popen` call (main.py)
passes no `cwd`, so the worker inherits the launcher's current working
directory rather than the installation directory: launched from
`C:/Users/other` the worker runs in `C:/Users/other`, not in the
installation directory — refuting "every worker launch ... with the
working directory set to the installation (script) directory". -/
theorem c6_hotkey_cwd_not_pinned :
    effectiveCwd (hotkey_popen "python" "gemini_liveapi.py" "screen") "C:/Users/other"
      = "C:/Users/other" ∧
    "C:/Users/other" ≠ "C:/TalkStream" ∧
    effectiveCwd (tray_popen "python" "gemini_liveapi.py" "C:/TalkStream" "screen")
      "C:/Users/other" = "C:/TalkStream" := by
  decide

/-- C6 (amended): every worker launch passes `--mode {mode}` with
inherited environment, all three standard streams redirected to pipes
and no visible window; the tray app's launch additionally pins the
working directory to the installation directory, while the hotkey
launcher's launch inherits the launcher's working directory instead. -/
theorem c6_worker_invocation (py script dir mode launcherCwd : String) :
    (tray_popen py script dir mode).args = [py, script, "--mode", mode] ∧
    effectiveCwd (tray_popen py script dir mode) launcherCwd = dir ∧
    (tray_popen py script dir mode).envInherited = true ∧
    (tray_popen py script dir mode).stdinPiped = true ∧
    (tray_popen py script dir mode).stdoutPiped = true ∧
    (tray_popen py script dir mode).stderrPiped = true ∧
    (tray_popen py script dir mode).windowHidden = true ∧
    (hotkey_popen py script mode).args = [py, script, "--mode", mode] ∧
    effectiveCwd (hotkey_popen py script mode) launcherCwd = launcherCwd ∧
    (hotkey_popen py script mode).envInherited = true ∧
    (hotkey_popen py script mode).stdinPiped = true ∧
    (hotkey_popen py script mode).stdoutPiped = true ∧
    (hotkey_popen py script mode).stderrPiped = true ∧
    (hotkey_popen py script mode).windowHidden = true :=
  ⟨rfl, rfl, rfl, rfl, rfl, rfl, rfl, rfl, rfl, rfl, rfl, rfl, rfl, rfl⟩

/-! ## Claim C7 -/

/-- C7: instrumentation failures never break the worker's audio path.
If attaching the hook raises, the original open stays in effect; if the
instrumentation inside `patched_open` raises, the original open is
called with the same arguments; the write method of a patched stream
returns exactly what the original write returns; and `patched_write`
calls through to the original write with the same argument under every
failure mode of the monitoring code. -/
theorem c7_instrumentation_falls_back {α δ ρ : Type} (origOpen : α → AudioStream δ ρ)
    (origWrite : δ → ρ) (attachFault : OpenFault) (attachWf : WriteFault)
    (of : OpenFault) (wf : WriteFault) (isOutput : Bool) (a : α) (d : δ) :
    patch_audio_play true attachFault attachWf origOpen isOutput a = origOpen a ∧
    patched_open OpenFault.raiseInPatch wf origOpen isOutput a = origOpen a ∧
    (patched_open of wf origOpen isOutput a).write d = (origOpen a).write d ∧
    (patched_write wf origWrite d).result = origWrite d := by
  refine ⟨rfl, rfl, ?_, ?_⟩
  · cases of <;> cases wf <;> cases isOutput <;> rfl
  · cases wf <;> rfl

/-! ## Claim C8 -/

/-- C8: when no worker is running, `stop_talkstream` is a no-op that
leaves the controller state (slot, process table, selection, config)
unchanged, and hence so are all `n` consecutive calls. -/
theorem c8_stop_is_idempotent_noop (s : TrayState)
    (h : is_process_running s.procs s.slot = false) (n : Nat) :
    stop_talkstream^[n] s = s := by
  induction n with
  | zero => rfl
  | succ n ih => rw [Function.iterate_succ_apply, stop_eq_noop s h, ih]

theorem c8_stop_is_idempotent_noop_witness :
    is_process_running ([] : List Bool) (none : Option Nat) = false ∧
    stop_talkstream^[5] ⟨[], none, none, none⟩ = ⟨[], none, none, none⟩ :=
  ⟨rfl, c8_stop_is_idempotent_noop ⟨[], none, none, none⟩ rfl 5⟩

/-! ## Claim C9 -/

/-- C9: `select_window` records the selection; when the worker is
running it stops it (the old worker is dead afterwards) and immediately
spawns one new worker in window mode, writing the window artifact for
the newly selected handle; when nothing is running it only records the
selection and spawns nothing.  (The source discards the handle of the
restarted worker, so the slot is left cleared — also stated here.) -/
theorem c9_select_window_restart (env : LaunchEnv) (hwnd : Nat) (s : TrayState) :
    (∀ pid, env.scriptExists = true → s.slot = some pid → aliveAt s.procs pid = true →
      (select_window env hwnd s).selected = some hwnd ∧
      aliveAt (select_window env hwnd s).procs pid = false ∧
      (select_window env hwnd s).procs.length = s.procs.length + 1 ∧
      aliveAt (select_window env hwnd s).procs s.procs.length = env.survivesGrace ∧
      (select_window env hwnd s).config
        = some [("type", JVal.str "window"), ("hwnd", JVal.num hwnd),
                ("title", JVal.str (env.title hwnd))] ∧
      (select_window env hwnd s).slot = none) ∧
    (is_process_running s.procs s.slot = false →
      select_window env hwnd s = { s with selected := some hwnd }) := by
  constructor
  · intro pid hse hslot halive
    have hlt : pid < s.procs.length := aliveAt_lt_length halive
    have hsel : select_window env hwnd s
        = (start_talkstream env "window"
            { s with selected := some hwnd, procs := s.procs.set pid false,
                     slot := none }).1 := by
      simp [select_window, stop_talkstream, is_process_running, kill_pid, hslot, halive]
    rw [hsel, start_eq_spawn env "window" _ hse]
    have hlenset : (s.procs.set pid false).length = s.procs.length := by simp
    refine ⟨rfl, ?_, ?_, ?_, ?_, rfl⟩
    · show aliveAt (s.procs.set pid false ++ [env.survivesGrace]) pid = false
      rw [aliveAt_append_left _ (by rw [hlenset]; exact hlt), aliveAt_set_self]
    · show (s.procs.set pid false ++ [env.survivesGrace]).length = s.procs.length + 1
      simp
    · show aliveAt (s.procs.set pid false ++ [env.survivesGrace]) s.procs.length
        = env.survivesGrace
      rw [← hlenset, aliveAt_append_right]
    · show write_config_step env.title "window" (some hwnd) s.config = _
      rfl
  · intro hnr
    simp [select_window, hnr]

theorem c9_select_window_restart_witness :
    (select_window ⟨true, true, fun _ => "Notepad"⟩ 7
        ⟨[true], some 0, none, none⟩).selected = some 7 ∧
    aliveAt (select_window ⟨true, true, fun _ => "Notepad"⟩ 7
        ⟨[true], some 0, none, none⟩).procs 0 = false ∧
    (select_window ⟨true, true, fun _ => "Notepad"⟩ 7
        ⟨[true], some 0, none, none⟩).procs.length = 2 ∧
    aliveAt (select_window ⟨true, true, fun _ => "Notepad"⟩ 7
        ⟨[true], some 0, none, none⟩).procs 1 = true ∧
    (select_window ⟨true, true, fun _ => "Notepad"⟩ 7
        ⟨[true], some 0, none, none⟩).config
      = some [("type", JVal.str "window"), ("hwnd", JVal.num 7),
              ("title", JVal.str "Notepad")] ∧
    (select_window ⟨true, true, fun _ => "Notepad"⟩ 7
        ⟨[true], some 0, none, none⟩).slot = none :=
  (c9_select_window_restart ⟨true, true, fun _ => "Notepad"⟩ 7
    ⟨[true], some 0, none, none⟩).1 0 rfl rfl rfl

/-! ## Claim C10 -/

/-- C10: starting in window mode with no window ever selected writes no
artifact at all — the config file keeps whatever a previous launch
wrote — while the worker is still spawned against that stale content. -/
theorem c10_window_mode_without_selection_stale_config (env : LaunchEnv) (s : TrayState)
    (hse : env.scriptExists = true) (hsel : s.selected = none) :
    (start_talkstream env "window" s).1.config = s.config ∧
    (start_talkstream env "window" s).1.procs = s.procs ++ [env.survivesGrace] := by
  rw [start_eq_spawn env "window" s hse]
  refine ⟨?_, rfl⟩
  show write_config_step env.title "window" s.selected s.config = s.config
  rw [hsel]
  rfl

theorem c10_window_mode_without_selection_stale_config_witness :
    (start_talkstream ⟨true, true, fun _ => ""⟩ "window"
      ⟨[], none, none, some [("type", JVal.str "fullscreen")]⟩).1.config
      = some [("type", JVal.str "fullscreen")] ∧
    (start_talkstream ⟨true, true, fun _ => ""⟩ "window"
      ⟨[], none, none, some [("type", JVal.str "fullscreen")]⟩).1.procs = [true] :=
  c10_window_mode_without_selection_stale_config ⟨true, true, fun _ => ""⟩
    ⟨[], none, none, some [("type", JVal.str "fullscreen")]⟩ rfl rfl

end TalkStream
